import Mathlib

/-!
Shallow embedding of the version/history state machine and token-accounting
engine of the repository (src/chatbot.py and src/chatbot_v2.py).

Python integers are modelled as Int; the heterogeneous Python lists that hold
either numbered steps or the "RESET" string are modelled by the inductive
StepEntry.  Wall-clock timestamps and the textual labels of versions and
change-log entries carry no logical content: a version is modelled by its
message list, and the change log of chatbot_v2 by the number of its entries.
Deep copies are identities on immutable Lean values.
-/

namespace Chat

/-- A chat message: langchain messages expose a `type` string
("human" or "ai") and a `content` string. -/
structure Message where
  type : String
  content : String
deriving DecidableEq

/-- The cumulative counters exposed by the OpenAI callback handler
(`total_tokens`, `prompt_tokens`, `completion_tokens`). -/
structure Counters where
  total : Int
  prompt : Int
  completion : Int
deriving DecidableEq

/-- An element of the `steps` list of the token-usage history: a numbered
step, or the "RESET" sentinel that chatbot_v2 appends on a reset. -/
inductive StepEntry where
  | num (n : Nat)
  | reset
deriving DecidableEq

/-- The `token_usage_history` dictionary shared by both implementations:
seven parallel append-only series. -/
structure TokenHistory where
  steps : List StepEntry
  cumulative_tokens : List Int
  cumulative_prompt_tokens : List Int
  cumulative_completion_tokens : List Int
  individual_total_tokens : List Int
  individual_prompt_tokens : List Int
  individual_completion_tokens : List Int
deriving DecidableEq

/-- The empty token-usage history both constructors build. -/
def TokenHistory.empty : TokenHistory :=
  { steps := []
    cumulative_tokens := []
    cumulative_prompt_tokens := []
    cumulative_completion_tokens := []
    individual_total_tokens := []
    individual_prompt_tokens := []
    individual_completion_tokens := [] }

/-- One call to the ledger's record operation (`_track_token_usage`):
the cumulative counters read from the callback handler at call time,
and the `is_reset` flag. -/
structure RecordCall where
  counters : Counters
  is_reset : Bool
deriving DecidableEq

namespace V1

/-- `ChatManager._track_token_usage` of src/chatbot.py (lines 72-113).
State threaded explicitly: the token history and the optional
`last_known_cumulative` attribute (the baseline); `handler` holds the
callback handler's counters at call time.  Returns the updated history
and baseline. -/
def trackTokenUsage (hist : TokenHistory) (baseline : Option Counters)
    (handler : Counters) ( is_reset : Bool) : TokenHistory × Option Counters :=
  let total_used := handler.total
  let prompt_used := handler.prompt
  let completion_used := handler.completion
  -- last known cumulative values (before reset)
  let prev_total := hist.cumulative_tokens.getLast?.getD 0
  let prev_prompt := hist.cumulative_prompt_tokens.getLast?.getD 0
  let prev_completion := hist.cumulative_completion_tokens.getLast?.getD 0
  if is_reset then
    -- store last_known_cumulative and return without logging a step
    (hist, some ⟨total_used, prompt_used, completion_used⟩)
  else
    -- first step after a reset reads the baseline, which is then deleted
    let prevs : Int × Int × Int :=
      match baseline with
      | some b => (b.total, b.prompt, b.completion)
      | none => (prev_total, prev_prompt, prev_completion)
    let individual_total := max 0 (total_used - prevs.1)
    let individual_prompt := max 0 (prompt_used - prevs.2.1)
    let individual_completion := max 0 (completion_used - prevs.2.2)
    let steps := hist.steps.length + 1
    ({ steps := hist.steps ++ [StepEntry.num steps]
       cumulative_tokens := hist.cumulative_tokens ++ [total_used]
       cumulative_prompt_tokens := hist.cumulative_prompt_tokens ++ [prompt_used]
       cumulative_completion_tokens :=
         hist.cumulative_completion_tokens ++ [completion_used]
       individual_total_tokens := hist.individual_total_tokens ++ [individual_total]
       individual_prompt_tokens := hist.individual_prompt_tokens ++ [individual_prompt]
       individual_completion_tokens :=
         hist.individual_completion_tokens ++ [individual_completion] },
     none)

/-- One ledger step as a fold action over (history, baseline). -/
def recordStep (p : TokenHistory × Option Counters) (c : RecordCall) :
    TokenHistory × Option Counters :=
  trackTokenUsage p.1 p.2 c.counters c.is_reset

/-- Run a sequence of record calls against a fresh chatbot.py ledger. -/
def runLedger (calls : List RecordCall) : TokenHistory × Option Counters :=
  calls.foldl recordStep (TokenHistory.empty, none)

/-- The mutable state of src/chatbot.py's ChatManager: version list (each
version modelled by its message list; the timestamp/name label carries no
logic), current version pointer, the live transcript
(`memory.chat_memory.messages`), the callback handler's cumulative
counters, the token history, the optional `last_known_cumulative`
attribute, and the `deleted_versions` / `restored_versions` tag lists. -/
structure ChatState where
  chat_versions : List (List Message)
  current_version : Option Nat
  memory : List Message
  handler : Counters
  token_usage_history : TokenHistory
  last_known_cumulative : Option Counters
  deleted_versions : List Nat
  restored_versions : List Nat
deriving DecidableEq

/-- `ChatManager.__init__` of src/chatbot.py: empty version list, no
current version, fresh handler, empty history, no baseline attribute. -/
def init : ChatState :=
  { chat_versions := []
    current_version := none
    memory := []
    handler := ⟨0, 0, 0⟩
    token_usage_history := TokenHistory.empty
    last_known_cumulative := none
    deleted_versions := []
    restored_versions := [] }

/-- The `memory.clear()` + `add_user_message`/`add_ai_message` loop used by
`delete_chat_messages` and `restore_chat_version`: a message whose type is
"human" is re-added as a human message, every other message as an ai
message. -/
def reAdd (msgs : List Message) : List Message :=
  msgs.map fun m => if m.type = "human" then ⟨"human", m.content⟩ else ⟨"ai", m.content⟩

/-- The valid-index filter of `delete_chat_messages`:
`[i for i in indexes_to_delete if 0 <= i < len(latest_messages)]`. -/
def validIndexes (msgs : List Message) (idxs : List Int) : List Int :=
  idxs.filter fun i => decide (0 ≤ i ∧ i < (msgs.length : Int))

/-- `ChatManager.process_user_input` of src/chatbot.py (lines 58-69).
Before the model call, the pre-call transcript is snapshotted as a new
version when it is non-empty.  The external `chain.invoke` is a parameter:
on success it yields the assistant's text and the handler's new cumulative
counters, appends the human and ai messages to memory, and the ledger is
recorded; on failure the exception propagates, leaving only the mutations
already made before the call. -/
def processUserInput (s : ChatState) (user_input : String)
    (gen : Except Unit (String × Counters)) : ChatState :=
  let s1 :=
    if s.memory = [] then s
    else { s with chat_versions := s.chat_versions ++ [s.memory]
                  current_version := some s.chat_versions.length }
  match gen with
  | Except.error _ => s1
  | Except.ok (response, c) =>
    let s2 := { s1 with memory := s1.memory ++ [(⟨"human", user_input⟩ : Message), ⟨"ai", response⟩]
                        handler := c }
    let r := trackTokenUsage s2.token_usage_history s2.last_known_cumulative s2.handler false
    { s2 with token_usage_history := r.1, last_known_cumulative := r.2 }

/-- `ChatManager.delete_chat_messages` of src/chatbot.py (lines 217-254).
No-op on an empty transcript or an empty valid-index set; otherwise keeps
the messages whose index is not targeted, rebuilds memory through the
re-add loop, appends the reduced transcript as a new version, and tags it
in `deleted_versions`. -/
def deleteChatMessages (s : ChatState) (indexes_to_delete : List Int) : ChatState :=
  let latest_messages := s.memory
  if latest_messages = [] then s
  else
    let valid_indexes := validIndexes latest_messages indexes_to_delete
    if valid_indexes = [] then s
    else
      let new_version_messages :=
        (latest_messages.enum.filter fun p => !(valid_indexes.contains (p.1 : Int))).map
          Prod.snd
      { s with memory := reAdd new_version_messages
               chat_versions := s.chat_versions ++ [new_version_messages]
               current_version := some s.chat_versions.length
               deleted_versions := s.deleted_versions ++ [s.chat_versions.length] }

/-- `ChatManager.restore_chat_version` of src/chatbot.py (lines 257-282).
On a valid index: memory is cleared and the version's messages re-added,
the current pointer moves, then `_initialize_llm_and_tracking` rebuilds
the chain — which replaces `self.memory` with a fresh empty
ConversationBufferMemory and the handler with fresh zero counters — and
`_track_token_usage(is_reset=True)` stores the (now zero) counters as the
baseline; the index is tagged in `restored_versions`.  Out of bounds: no
state change. -/
def restoreChatVersion (s : ChatState) (version_number : Int) : ChatState :=
  if 0 ≤ version_number ∧ version_number < (s.chat_versions.length : Int) then
    let n := version_number.toNat
    let s1 := { s with memory := reAdd (s.chat_versions.getD n [])
                       current_version := some n }
    let s2 := { s1 with memory := ([] : List Message), handler := (⟨0, 0, 0⟩ : Counters) }
    let r := trackTokenUsage s2.token_usage_history s2.last_known_cumulative s2.handler true
    { s2 with token_usage_history := r.1
              last_known_cumulative := r.2
              restored_versions := s2.restored_versions ++ [n] }
  else s

/-- `ChatManager.save_version` of src/chatbot.py (lines 285-291): appends
the current memory as a new version unconditionally (the name label
carries no logic) and makes it current. -/
def saveVersion (s : ChatState) (version_name : String) : ChatState :=
  { s with chat_versions := s.chat_versions ++ [s.memory]
           current_version := some s.chat_versions.length }

end V1

namespace V2

/-- `ChatManager._track_token_usage` of src/chatbot_v2.py (lines 123-167).
On reset it appends an all-zero sentinel row with step "RESET" and stores
the baseline; otherwise the previous values are read from the baseline
(`getattr(self, "last_known_cumulative", \x7b\x7d).get(..., 0)`), which is
never cleared, and the same delta is appended to both the cumulative and
the individual series. -/
def trackTokenUsage (hist : TokenHistory) (baseline : Option Counters)
    (handler : Counters) ( is_reset : Bool) : TokenHistory × Option Counters :=
  let total_used := handler.total
  let prompt_used := handler.prompt
  let completion_used := handler.completion
  if is_reset then
    ({ steps := hist.steps ++ [StepEntry.reset]
       cumulative_tokens := hist.cumulative_tokens ++ [0]
       cumulative_prompt_tokens := hist.cumulative_prompt_tokens ++ [0]
       cumulative_completion_tokens := hist.cumulative_completion_tokens ++ [0]
       individual_total_tokens := hist.individual_total_tokens ++ [0]
       individual_prompt_tokens := hist.individual_prompt_tokens ++ [0]
       individual_completion_tokens := hist.individual_completion_tokens ++ [0] },
     some ⟨total_used, prompt_used, completion_used⟩)
  else
    let prev_total := (baseline.map Counters.total).getD 0
    let prev_prompt := (baseline.map Counters.prompt).getD 0
    let prev_completion := (baseline.map Counters.completion).getD 0
    let individual_total := max 0 (total_used - prev_total)
    let individual_prompt := max 0 (prompt_used - prev_prompt)
    let individual_completion := max 0 (completion_used - prev_completion)
    let step := hist.steps.length + 1
    ({ steps := hist.steps ++ [StepEntry.num step]
       cumulative_tokens := hist.cumulative_tokens ++ [individual_total]
       cumulative_prompt_tokens := hist.cumulative_prompt_tokens ++ [individual_prompt]
       cumulative_completion_tokens :=
         hist.cumulative_completion_tokens ++ [individual_completion]
       individual_total_tokens := hist.individual_total_tokens ++ [individual_total]
       individual_prompt_tokens := hist.individual_prompt_tokens ++ [individual_prompt]
       individual_completion_tokens :=
         hist.individual_completion_tokens ++ [individual_completion] },
     baseline)

/-- One ledger step as a fold action over (history, baseline). -/
def recordStep (p : TokenHistory × Option Counters) (c : RecordCall) :
    TokenHistory × Option Counters :=
  trackTokenUsage p.1 p.2 c.counters c.is_reset

/-- Run a sequence of record calls against a fresh chatbot_v2.py ledger. -/
def runLedger (calls : List RecordCall) : TokenHistory × Option Counters :=
  calls.foldl recordStep (TokenHistory.empty, none)

/-- The mutable state of src/chatbot_v2.py's ChatManager.  The change log
holds timestamped human-readable strings; only its length carries logic,
so it is modelled by an entry count. -/
structure ChatState where
  chat_versions : List (List Message)
  current_version : Option Nat
  change_log : Nat
  memory : List Message
  handler : Counters
  token_usage_history : TokenHistory
  last_known_cumulative : Option Counters
deriving DecidableEq

/-- `ChatManager.__init__` of src/chatbot_v2.py: `_create_initial_version`
appends an empty version 0 and logs it, after which `self.change_log = []`
(line 36) re-creates the log empty, so the count starts at 0. -/
def init : ChatState :=
  { chat_versions := [[]]
    current_version := some 0
    change_log := 0
    memory := []
    handler := ⟨0, 0, 0⟩
    token_usage_history := TokenHistory.empty
    last_known_cumulative := none }

/-- `ChatManager.process_user_input` of src/chatbot_v2.py (lines 79-97).
The external `chain.invoke` runs first: on failure the exception
propagates with no state mutated; on success the human and ai messages
are in memory and the handler advanced, then the post-call transcript is
appended as a new version, the change logged, and the ledger recorded. -/
def processUserInput (s : ChatState) (user_input : String)
    (gen : Except Unit (String × Counters)) : ChatState :=
  match gen with
  | Except.error _ => s
  | Except.ok (response, c) =>
    let s1 := { s with memory := s.memory ++ [(⟨"human", user_input⟩ : Message), ⟨"ai", response⟩]
                       handler := c }
    let s2 := { s1 with chat_versions := s1.chat_versions ++ [s1.memory]
                        current_version := some s1.chat_versions.length
                        change_log := s1.change_log + 1 }
    let r := trackTokenUsage s2.token_usage_history s2.last_known_cumulative s2.handler false
    { s2 with token_usage_history := r.1, last_known_cumulative := r.2 }

/-- `ChatManager.restore_version` of src/chatbot_v2.py (lines 100-120).
Out-of-bounds index: no state change (an error string is returned).
Otherwise the live transcript becomes a deep copy of the chosen version's
messages, the current pointer moves, the restoration is logged, and the
ledger records a reset. -/
def restoreVersion (s : ChatState) (version_index : Int) : ChatState :=
  if version_index < 0 ∨ (s.chat_versions.length : Int) ≤ version_index then s
  else
    let n := version_index.toNat
    let s1 := { s with memory := s.chat_versions.getD n []
                       current_version := some n
                       change_log := s.change_log + 1 }
    let r := trackTokenUsage s1.token_usage_history s1.last_known_cumulative s1.handler true
    { s1 with token_usage_history := r.1, last_known_cumulative := r.2 }

end V2

end Chat

namespace Chat

/-- The steps list 1, 2, ..., n with no gaps and no sentinels. -/
def consecutiveSteps : Nat → List StepEntry
  | 0 => []
  | n + 1 => consecutiveSteps n ++ [StepEntry.num (n + 1)]

lemma length_consecutiveSteps (n : Nat) : (consecutiveSteps n).length = n := by
  induction n with
  | zero => rfl
  | succ n ih => simp [consecutiveSteps, ih]

lemma v1_recordStep_steps_consecutive (p : TokenHistory × Option Counters)
    (c : RecordCall) (h : p.1.steps = consecutiveSteps p.1.steps.length) :
    (V1.recordStep p c).1.steps
      = consecutiveSteps (V1.recordStep p c).1.steps.length := by
  by_cases hb : c.is_reset = true
  · simpa [V1.recordStep, V1.trackTokenUsage, hb] using h
  · simp only [V1.recordStep, V1.trackTokenUsage, hb, if_false, Bool.false_eq_true]
    simp only [List.length_append, List.length_cons, List.length_nil]
    rw [consecutiveSteps]
    conv_lhs => rw [h]
    rw [length_consecutiveSteps]

lemma v1_foldl_steps_consecutive (calls : List RecordCall)
    (p : TokenHistory × Option Counters)
    (h : p.1.steps = consecutiveSteps p.1.steps.length) :
    (calls.foldl V1.recordStep p).1.steps
      = consecutiveSteps (calls.foldl V1.recordStep p).1.steps.length := by
  induction calls generalizing p with
  | nil => simpa using h
  | cons c cs ih =>
    rw [List.foldl_cons]
    exact ih _ (v1_recordStep_steps_consecutive p c h)

end Chat

namespace Chat

/-- All three per-step delta series of a ledger state are non-negative. -/
def NonnegDeltas (p : TokenHistory × Option Counters) : Prop :=
  (∀ x ∈ p.1.individual_total_tokens, 0 ≤ x)
  ∧ (∀ x ∈ p.1.individual_prompt_tokens, 0 ≤ x)
  ∧ (∀ x ∈ p.1.individual_completion_tokens, 0 ≤ x)

lemma nonneg_append_max {l : List Int} {a : Int}
    (h : ∀ x ∈ l, 0 ≤ x) : ∀ x ∈ l ++ [max 0 a], 0 ≤ x := by
  intro x hx
  rcases List.mem_append.1 hx with h' | h'
  · exact h x h'
  · rcases List.mem_singleton.1 h' with rfl
    exact le_max_left 0 a
lemma nonneg_append_zero {l : List Int}
    (h : ∀ x ∈ l, 0 ≤ x) : ∀ x ∈ l ++ [0], 0 ≤ x := by
  intro x hx
  rcases List.mem_append.1 hx with h' | h'
  · exact h x h'
  · rcases List.mem_singleton.1 h' with rfl
    exact le_refl 0

lemma v1_recordStep_nonneg (p : TokenHistory × Option Counters) (c : RecordCall)
    (h : NonnegDeltas p) : NonnegDeltas (V1.recordStep p c) := by
  obtain ⟨h1, h2, h3⟩ := h
  by_cases hb : c.is_reset = true
  · exact ⟨by simpa [V1.recordStep, V1.trackTokenUsage, hb] using h1,
           by simpa [V1.recordStep, V1.trackTokenUsage, hb] using h2,
           by simpa [V1.recordStep, V1.trackTokenUsage, hb] using h3⟩
  · refine ⟨?_, ?_, ?_⟩ <;>
      simp only [NonnegDeltas, V1.recordStep, V1.trackTokenUsage, hb, if_false,
        Bool.false_eq_true]
    · exact nonneg_append_max h1
    · exact nonneg_append_max h2
    · exact nonneg_append_max h3

lemma v2_recordStep_nonneg (p : TokenHistory × Option Counters) (c : RecordCall)
    (h : NonnegDeltas p) : NonnegDeltas (V2.recordStep p c) := by
  obtain ⟨h1, h2, h3⟩ := h
  by_cases hb : c.is_reset = true
  · refine ⟨?_, ?_, ?_⟩ <;>
      simp only [V2.recordStep, V2.trackTokenUsage, hb, if_true]
    · exact nonneg_append_zero h1
    · exact nonneg_append_zero h2
    · exact nonneg_append_zero h3
  · refine ⟨?_, ?_, ?_⟩ <;>
      simp only [V2.recordStep, V2.trackTokenUsage, hb, if_false, Bool.false_eq_true]
    · exact nonneg_append_max h1
    · exact nonneg_append_max h2
    · exact nonneg_append_max h3

lemma v1_foldl_nonneg (calls : List RecordCall) (p : TokenHistory × Option Counters)
    (h : NonnegDeltas p) : NonnegDeltas (calls.foldl V1.recordStep p) := by
  induction calls generalizing p with
  | nil => simpa using h
  | cons c cs ih =>
    rw [List.foldl_cons]
    exact ih _ (v1_recordStep_nonneg p c h)

lemma v2_foldl_nonneg (calls : List RecordCall) (p : TokenHistory × Option Counters)
    (h : NonnegDeltas p) : NonnegDeltas (calls.foldl V2.recordStep p) := by
  induction calls generalizing p with
  | nil => simpa using h
  | cons c cs ih =>
    rw [List.foldl_cons]
    exact ih _ (v2_recordStep_nonneg p c h)

/-- In the chatbot_v2 ledger the three cumulative series coincide with the
three per-step series. -/
def CumEqInd (p : TokenHistory × Option Counters) : Prop :=
  p.1.cumulative_tokens = p.1.individual_total_tokens
  ∧ p.1.cumulative_prompt_tokens = p.1.individual_prompt_tokens
  ∧ p.1.cumulative_completion_tokens = p.1.individual_completion_tokens

lemma v2_recordStep_cum_eq_ind (p : TokenHistory × Option Counters) (c : RecordCall)
    (h : CumEqInd p) : CumEqInd (V2.recordStep p c) := by
  obtain ⟨h1, h2, h3⟩ := h
  by_cases hb : c.is_reset = true <;>
    refine ⟨?_, ?_, ?_⟩ <;>
      simp [V2.recordStep, V2.trackTokenUsage, hb, h1, h2, h3]

lemma v2_foldl_cum_eq_ind (calls : List RecordCall) (p : TokenHistory × Option Counters)
    (h : CumEqInd p) : CumEqInd (calls.foldl V2.recordStep p) := by
  induction calls generalizing p with
  | nil => simpa using h
  | cons c cs ih =>
    rw [List.foldl_cons]
    exact ih _ (v2_recordStep_cum_eq_ind p c h)

end Chat

namespace Chat

/-- C1: Reset re-basing — after record(100,60,40,false), a reset with
counters frozen at (150,90,60), then record(170,100,70,false), the third
call emits per-step deltas (20,10,10), computed against the baseline
stored at the reset, in both chatbot.py and chatbot_v2.py ledgers
(chatbot_v2 additionally logs an all-zero sentinel row for the reset). -/
theorem C1_reset_rebasing :
    ((V1.runLedger [⟨⟨100, 60, 40⟩, false⟩, ⟨⟨150, 90, 60⟩, true⟩,
        ⟨⟨170, 100, 70⟩, false⟩]).1.individual_total_tokens = [100, 20]
    ∧ (V1.runLedger [⟨⟨100, 60, 40⟩, false⟩, ⟨⟨150, 90, 60⟩, true⟩,
        ⟨⟨170, 100, 70⟩, false⟩]).1.individual_prompt_tokens = [60, 10]
    ∧ (V1.runLedger [⟨⟨100, 60, 40⟩, false⟩, ⟨⟨150, 90, 60⟩, true⟩,
        ⟨⟨170, 100, 70⟩, false⟩]).1.individual_completion_tokens = [40, 10])
  ∧ ((V2.runLedger [⟨⟨100, 60, 40⟩, false⟩, ⟨⟨150, 90, 60⟩, true⟩,
        ⟨⟨170, 100, 70⟩, false⟩]).1.individual_total_tokens = [100, 0, 20]
    ∧ (V2.runLedger [⟨⟨100, 60, 40⟩, false⟩, ⟨⟨150, 90, 60⟩, true⟩,
        ⟨⟨170, 100, 70⟩, false⟩]).1.individual_prompt_tokens = [60, 0, 10]
    ∧ (V2.runLedger [⟨⟨100, 60, 40⟩, false⟩, ⟨⟨150, 90, 60⟩, true⟩,
        ⟨⟨170, 100, 70⟩, false⟩]).1.individual_completion_tokens = [40, 0, 10]) := by
  decide

/-- C2 counterexample: in the chatbot_v2 ledger the baseline is NOT
cleared by the first non-reset call after a reset — after
record(is_reset=true) at (100,60,40) and record(150,90,60,false) the
baseline is still some (100,60,40), and a further record(170,100,70,false)
still subtracts that stale baseline, emitting delta 70 rather than a delta
against the most recent entry. -/
theorem C2_counterexample :
    (V2.runLedger [⟨⟨100, 60, 40⟩, true⟩, ⟨⟨150, 90, 60⟩, false⟩]).2
      = some ⟨100, 60, 40⟩
  ∧ (V2.runLedger [⟨⟨100, 60, 40⟩, true⟩, ⟨⟨150, 90, 60⟩, false⟩,
      ⟨⟨170, 100, 70⟩, false⟩]).1.individual_total_tokens = [0, 50, 70] := by
  decide

/-- C2 amended: in chatbot.py the baseline is consumed by exactly the
first subsequent non-reset record call and cleared there, so later
non-reset calls subtract the most recent entry's cumulative values (or
zero on an empty ledger); in chatbot_v2 the baseline is never cleared, and
every non-reset call subtracts the stored baseline (or zero if no reset
has occurred), never the previous entry's values. -/
theorem C2_baseline_amended :
    (∀ (hist : TokenHistory) (b : Option Counters) (c : Counters),
        (V1.trackTokenUsage hist b c false).2 = none)
  ∧ (∀ (hist : TokenHistory) (c : Counters),
        (V1.trackTokenUsage hist none c false).1.individual_total_tokens
          = hist.individual_total_tokens
              ++ [max 0 (c.total - hist.cumulative_tokens.getLast?.getD 0)])
  ∧ (∀ (hist : TokenHistory) (b : Counters) (c : Counters),
        (V1.trackTokenUsage hist (some b) c false).1.individual_total_tokens
          = hist.individual_total_tokens ++ [max 0 (c.total - b.total)])
  ∧ (∀ (hist : TokenHistory) (b : Option Counters) (c : Counters),
        (V2.trackTokenUsage hist b c false).2 = b
      ∧ (V2.trackTokenUsage hist b c false).1.individual_total_tokens
          = hist.individual_total_tokens
              ++ [max 0 (c.total - (b.map Counters.total).getD 0)]) := by
  exact ⟨fun hist b c => rfl, fun hist c => rfl, fun hist b c => rfl,
         fun hist b c => ⟨rfl, rfl⟩⟩

/-- C5 counterexample: in chatbot.py a record call with is_reset=true
appends NO ledger entry at all (not a sentinel row): after a single reset
call at (100,60,40) the history is still empty; only the baseline is
stored. -/
theorem C5_counterexample :
    (V1.runLedger [⟨⟨100, 60, 40⟩, true⟩]).1 = TokenHistory.empty
  ∧ (V1.runLedger [⟨⟨100, 60, 40⟩, true⟩]).2 = some ⟨100, 60, 40⟩ := by
  decide

/-- C5 amended: in chatbot_v2 a reset record call appends exactly one
sentinel row (step = RESET, all cumulative and delta fields zero), stores
the supplied counters as the baseline, and allocates no numbered step; in
chatbot.py a reset call appends no ledger entry at all and only stores
the baseline. -/
theorem C5_reset_sentinel_amended :
    (∀ (hist : TokenHistory) (b : Option Counters) (c : Counters),
        V2.trackTokenUsage hist b c true
          = ({ steps := hist.steps ++ [StepEntry.reset]
               cumulative_tokens := hist.cumulative_tokens ++ [0]
               cumulative_prompt_tokens := hist.cumulative_prompt_tokens ++ [0]
               cumulative_completion_tokens :=
                 hist.cumulative_completion_tokens ++ [0]
               individual_total_tokens := hist.individual_total_tokens ++ [0]
               individual_prompt_tokens := hist.individual_prompt_tokens ++ [0]
               individual_completion_tokens :=
                 hist.individual_completion_tokens ++ [0] }, some c))
  ∧ (∀ (hist : TokenHistory) (b : Option Counters) (c : Counters),
        V1.trackTokenUsage hist b c true = (hist, some c)) := by
  exact ⟨fun hist b c => rfl, fun hist b c => rfl⟩

/-- C6 counterexample: in the chatbot_v2 ledger the step counter counts
sentinel rows — record, reset, record yields numbered steps 1 and 3, not
1 and 2: the entry after the sentinel does not carry the previous numbered
step plus one. -/
theorem C6_counterexample :
    (V2.runLedger [⟨⟨10, 5, 5⟩, false⟩, ⟨⟨20, 10, 10⟩, true⟩,
        ⟨⟨30, 15, 15⟩, false⟩]).1.steps
      = [StepEntry.num 1, StepEntry.reset, StepEntry.num 3] := by
  decide

/-- C6 amended: in chatbot.py resets append no row, so the steps of any
run are exactly 1, 2, ..., n with no gaps; in chatbot_v2 each non-reset
call's step equals the total number of prior ledger rows INCLUDING reset
sentinels plus one, so each interleaved sentinel introduces a gap in the
numbered sequence. -/
theorem C6_step_numbering_amended :
    (∀ calls : List RecordCall,
        (V1.runLedger calls).1.steps
          = consecutiveSteps (V1.runLedger calls).1.steps.length)
  ∧ (∀ (hist : TokenHistory) (b : Option Counters) (c : Counters),
        (V2.trackTokenUsage hist b c false).1.steps
          = hist.steps ++ [StepEntry.num (hist.steps.length + 1)]) := by
  refine ⟨fun calls => ?_, fun hist b c => rfl⟩
  exact v1_foldl_steps_consecutive calls (TokenHistory.empty, none) rfl

/-- C9: Token delta non-negativity — for every sequence of record calls,
every per-step delta (total, prompt, completion) appended to the ledger is
non-negative, in both chatbot.py and chatbot_v2.py, because each delta is
floored at zero by max(0, current - previous). -/
theorem C9_delta_nonnegative (calls : List RecordCall) :
    ((∀ x ∈ (V1.runLedger calls).1.individual_total_tokens, 0 ≤ x)
    ∧ (∀ x ∈ (V1.runLedger calls).1.individual_prompt_tokens, 0 ≤ x)
    ∧ (∀ x ∈ (V1.runLedger calls).1.individual_completion_tokens, 0 ≤ x))
  ∧ ((∀ x ∈ (V2.runLedger calls).1.individual_total_tokens, 0 ≤ x)
    ∧ (∀ x ∈ (V2.runLedger calls).1.individual_prompt_tokens, 0 ≤ x)
    ∧ (∀ x ∈ (V2.runLedger calls).1.individual_completion_tokens, 0 ≤ x)) := by
  constructor
  · exact v1_foldl_nonneg calls (TokenHistory.empty, none)
      ⟨by simp [TokenHistory.empty], by simp [TokenHistory.empty],
       by simp [TokenHistory.empty]⟩
  · exact v2_foldl_nonneg calls (TokenHistory.empty, none)
      ⟨by simp [TokenHistory.empty], by simp [TokenHistory.empty],
       by simp [TokenHistory.empty]⟩

/-- C9 witness: on the concrete run [record(5,3,2,false)] the delta 5 is a
member of the per-step total series and is non-negative. -/
theorem C9_delta_nonnegative_witness :
    (5 : Int) ∈ (V1.runLedger [⟨⟨5, 3, 2⟩, false⟩]).1.individual_total_tokens
  ∧ (0 : Int) ≤ 5 :=
  ⟨by decide, (C9_delta_nonnegative [⟨⟨5, 3, 2⟩, false⟩]).1.1 5 (by decide)⟩

/-- C10: in the chatbot_v2 ledger every non-reset record call appends the
computed per-step delta (not the raw cumulative counter) to the three
cumulative series, and hence over any run the cumulative series are
identical to the individual (per-step) series: they never hold running
totals. -/
theorem C10_cumulative_holds_deltas :
    (∀ (hist : TokenHistory) (b : Option Counters) (c : Counters),
        (V2.trackTokenUsage hist b c false).1.cumulative_tokens
          = hist.cumulative_tokens
              ++ [max 0 (c.total - (b.map Counters.total).getD 0)]
      ∧ (V2.trackTokenUsage hist b c false).1.cumulative_prompt_tokens
          = hist.cumulative_prompt_tokens
              ++ [max 0 (c.prompt - (b.map Counters.prompt).getD 0)]
      ∧ (V2.trackTokenUsage hist b c false).1.cumulative_completion_tokens
          = hist.cumulative_completion_tokens
              ++ [max 0 (c.completion - (b.map Counters.completion).getD 0)])
  ∧ (∀ calls : List RecordCall,
        (V2.runLedger calls).1.cumulative_tokens
          = (V2.runLedger calls).1.individual_total_tokens
      ∧ (V2.runLedger calls).1.cumulative_prompt_tokens
          = (V2.runLedger calls).1.individual_prompt_tokens
      ∧ (V2.runLedger calls).1.cumulative_completion_tokens
          = (V2.runLedger calls).1.individual_completion_tokens) := by
  refine ⟨fun hist b c => ⟨rfl, rfl, rfl⟩, fun calls => ?_⟩
  exact v2_foldl_cum_eq_ind calls (TokenHistory.empty, none) ⟨rfl, rfl, rfl⟩

end Chat

namespace Chat

/-- A concrete chatbot.py state whose live transcript holds one
user/assistant exchange and whose version list is still empty. -/
def V1.sample : V1.ChatState :=
  { V1.init with memory := [⟨"human", "hi"⟩, ⟨"ai", "hello"⟩] }

/-- C3 counterexample: two structural mutations that do NOT append a
version — in chatbot.py a successful first turn from an empty transcript
leaves the version list empty, and in chatbot_v2 a valid restore leaves
the version list at its previous length (here 1). -/
theorem C3_counterexample :
    (V1.processUserInput V1.init "hi" (Except.ok ("yo", ⟨10, 6, 4⟩))).chat_versions = []
  ∧ (V2.restoreVersion V2.init 0).chat_versions.length = 1
  ∧ V2.init.chat_versions.length = 1 := by
  decide

/-- C3 amended: a successful turn in chatbot_v2, a successful turn in
chatbot.py whose pre-call transcript is non-empty (chatbot.py snapshots
the pre-call transcript, and snapshots nothing on the first turn), and a
delete with a non-empty valid index set each append exactly one Version;
restore appends no Version in either implementation. -/
theorem C3_version_growth_amended :
    (∀ (s : V2.ChatState) (u r : String) (c : Counters),
        (V2.processUserInput s u (Except.ok (r, c))).chat_versions.length
          = s.chat_versions.length + 1)
  ∧ (∀ (s : V1.ChatState) (u r : String) (c : Counters), s.memory ≠ [] →
        (V1.processUserInput s u (Except.ok (r, c))).chat_versions.length
          = s.chat_versions.length + 1)
  ∧ (∀ (s : V1.ChatState) (idxs : List Int),
        s.memory ≠ [] → V1.validIndexes s.memory idxs ≠ [] →
        (V1.deleteChatMessages s idxs).chat_versions.length
          = s.chat_versions.length + 1)
  ∧ (∀ (s : V2.ChatState) (i : Int),
        (V2.restoreVersion s i).chat_versions.length = s.chat_versions.length)
  ∧ (∀ (s : V1.ChatState) (i : Int),
        (V1.restoreChatVersion s i).chat_versions.length
          = s.chat_versions.length) := by
  refine ⟨fun s u r c => ?_, fun s u r c h => ?_, fun s idxs h1 h2 => ?_,
          fun s i => ?_, fun s i => ?_⟩
  · simp [V2.processUserInput]
  · simp [V1.processUserInput, h]
  · simp [V1.deleteChatMessages, h1, h2]
  · by_cases h : i < 0 ∨ (s.chat_versions.length : Int) ≤ i <;>
      simp [V2.restoreVersion, h]
  · by_cases h : 0 ≤ i ∧ i < (s.chat_versions.length : Int) <;>
      simp [V1.restoreChatVersion, h]

/-- C3 witness: on a concrete populated chatbot.py state, a delete of
message 0 and a successful turn each grow the version list by one. -/
theorem C3_version_growth_amended_witness :
    (V1.deleteChatMessages V1.sample [0]).chat_versions.length
      = V1.sample.chat_versions.length + 1
  ∧ (V1.processUserInput V1.sample "x" (Except.ok ("y", ⟨9, 5, 4⟩))).chat_versions.length
      = V1.sample.chat_versions.length + 1 :=
  ⟨C3_version_growth_amended.2.2.1 V1.sample [0] (by decide) (by decide),
   C3_version_growth_amended.2.1 V1.sample "x" "y" ⟨9, 5, 4⟩ (by decide)⟩

/-- C4 counterexample: a valid restore does not leave the rest of the
state untouched — in chatbot_v2, restoring version 0 of the fresh manager
appends a RESET sentinel to the token ledger, so the ledger is not the
same before and after. -/
theorem C4_counterexample :
    (V2.restoreVersion V2.init 0).token_usage_history.steps = [StepEntry.reset]
  ∧ V2.init.token_usage_history.steps = [] := by
  decide

/-- C4 amended: restore never changes the version list (hence no existing
version's messages) in either implementation; on a valid index chatbot_v2
sets the live transcript to the chosen version's messages and the current
index to it, but additionally appends a reset sentinel to the token
ledger, stores the handler counters as the baseline, and logs a change
entry; chatbot.py's restore leaves the ledger rows unchanged and stores a
zeroed baseline, but re-creates the memory object after restoring, so its
live transcript ends up empty. -/
theorem C4_restore_frame_amended :
    (∀ (s : V2.ChatState) (i : Int),
        (V2.restoreVersion s i).chat_versions = s.chat_versions)
  ∧ (∀ (s : V1.ChatState) (i : Int),
        (V1.restoreChatVersion s i).chat_versions = s.chat_versions)
  ∧ (∀ (s : V2.ChatState) (i : Int),
        0 ≤ i → i < (s.chat_versions.length : Int) →
        (V2.restoreVersion s i).memory = s.chat_versions.getD i.toNat []
      ∧ (V2.restoreVersion s i).current_version = some i.toNat
      ∧ (V2.restoreVersion s i).token_usage_history.steps
          = s.token_usage_history.steps ++ [StepEntry.reset]
      ∧ (V2.restoreVersion s i).last_known_cumulative = some s.handler
      ∧ (V2.restoreVersion s i).change_log = s.change_log + 1)
  ∧ (∀ (s : V1.ChatState) (i : Int),
        0 ≤ i → i < (s.chat_versions.length : Int) →
        (V1.restoreChatVersion s i).memory = []
      ∧ (V1.restoreChatVersion s i).current_version = some i.toNat
      ∧ (V1.restoreChatVersion s i).token_usage_history = s.token_usage_history
      ∧ (V1.restoreChatVersion s i).last_known_cumulative = some ⟨0, 0, 0⟩) := by
  refine ⟨fun s i => ?_, fun s i => ?_, fun s i h1 h2 => ?_, fun s i h1 h2 => ?_⟩
  · by_cases h : i < 0 ∨ (s.chat_versions.length : Int) ≤ i <;>
      simp [V2.restoreVersion, h]
  · by_cases h : 0 ≤ i ∧ i < (s.chat_versions.length : Int) <;>
      simp [V1.restoreChatVersion, h]
  · have hc : ¬(i < 0 ∨ (s.chat_versions.length : Int) ≤ i) := by omega
    refine ⟨?_, ?_, ?_, ?_, ?_⟩ <;> simp [V2.restoreVersion, V2.trackTokenUsage, hc]
  · have hc : 0 ≤ i ∧ i < (s.chat_versions.length : Int) := ⟨h1, h2⟩
    refine ⟨?_, ?_, ?_, ?_⟩ <;> simp [V1.restoreChatVersion, V1.trackTokenUsage, hc]

/-- C4 witness: restoring version 0 of the fresh chatbot_v2 manager sets
the live transcript to version 0's messages, moves the pointer, appends
the sentinel, stores the baseline and logs the change. -/
theorem C4_restore_frame_amended_witness :
    (V2.restoreVersion V2.init 0).memory = V2.init.chat_versions.getD (0 : Int).toNat []
  ∧ (V2.restoreVersion V2.init 0).current_version = some (0 : Int).toNat
  ∧ (V2.restoreVersion V2.init 0).token_usage_history.steps
      = V2.init.token_usage_history.steps ++ [StepEntry.reset]
  ∧ (V2.restoreVersion V2.init 0).last_known_cumulative = some V2.init.handler
  ∧ (V2.restoreVersion V2.init 0).change_log = V2.init.change_log + 1 :=
  C4_restore_frame_amended.2.2.1 V2.init 0 (by decide) (by decide)

/-- C7 counterexample: in chatbot.py the pre-call snapshot is taken before
the external call, so a failed call on a populated transcript leaves one
new version behind — the version list is not as it was before the call. -/
theorem C7_counterexample :
    V1.sample.chat_versions = []
  ∧ (V1.processUserInput V1.sample "x" (Except.error ())).chat_versions
      = [V1.sample.memory] := by
  decide

/-- C7 amended: in chatbot_v2 a failed generation call leaves the whole
state (transcript, version list, ledger) exactly as before; in chatbot.py
a failed call leaves the transcript and ledger unchanged but has already
appended a snapshot of the pre-call transcript as a new version whenever
that transcript was non-empty. -/
theorem C7_atomicity_amended :
    (∀ (s : V2.ChatState) (u : String),
        V2.processUserInput s u (Except.error ()) = s)
  ∧ (∀ (s : V1.ChatState) (u : String),
        V1.processUserInput s u (Except.error ())
          = if s.memory = [] then s
            else { s with chat_versions := s.chat_versions ++ [s.memory]
                          current_version := some s.chat_versions.length }) := by
  refine ⟨fun s u => rfl, fun s u => ?_⟩
  by_cases h : s.memory = [] <;> simp [V1.processUserInput, h]

/-- C8 counterexample: chatbot.py's save_version has no empty-transcript
guard — on the fresh manager (empty transcript, empty version list) it
appends a vacuous version. -/
theorem C8_counterexample :
    V1.init.memory = []
  ∧ (V1.saveVersion V1.init "checkpoint").chat_versions.length = 1 := by
  decide

/-- C8 amended: deleteMessages on an empty live transcript is a strict
no-op leaving the whole state unchanged, but save_version appends the
current transcript as a new version unconditionally — even when the live
transcript is empty — and makes it current. -/
theorem C8_empty_guard_amended :
    (∀ (s : V1.ChatState) (name : String),
        (V1.saveVersion s name).chat_versions = s.chat_versions ++ [s.memory]
      ∧ (V1.saveVersion s name).current_version = some s.chat_versions.length)
  ∧ (∀ (s : V1.ChatState) (idxs : List Int), s.memory = [] →
        V1.deleteChatMessages s idxs = s) := by
  refine ⟨fun s name => ⟨rfl, rfl⟩, fun s idxs h => ?_⟩
  simp [V1.deleteChatMessages, h]

/-- C8 witness: on the fresh chatbot.py manager, save_version appends the
(empty) transcript and a delete request is a no-op. -/
theorem C8_empty_guard_amended_witness :
    (V1.saveVersion V1.init "v").chat_versions
      = V1.init.chat_versions ++ [V1.init.memory]
  ∧ V1.deleteChatMessages V1.init [0] = V1.init :=
  ⟨(C8_empty_guard_amended.1 V1.init "v").1,
   C8_empty_guard_amended.2 V1.init [0] rfl⟩

end Chat
